import Mathlib

/-!
Shallow embedding of the session-lifecycle and resource-ownership layer of
`sherpa-rs` (files `transducer_online.rs`, `zipformer_online.rs`,
`paraformer.rs`), together with theorems settling the frozen claims.

Modelling conventions
- A C string pointer is a `CStr`: `.null` is the null pointer,
  `.lit s` is a pointer to a NUL-terminated copy of `s` (what
  `cstring_from_str` produces), and `.platformDefault` is a pointer to the
  platform-dependent string returned by `get_default_provider()` (that
  function lives in `lib.rs`, outside the provided sources, so its content
  is kept abstract).
- A C substructure whose field layout never appears in the sources (it is
  only ever written wholesale with `mem::zeroed()`) is a `RawStructBytes`:
  `.zeroed` is the all-zero-bytes value, `.nonzero tag` any other content.
- Raw engine handles are `Nat` values; an engine call that may return a
  null pointer is represented by an oracle argument of type `Option Nat`
  (`none` = null return).  FFI calls are recorded as an `EngineEv` trace.
- `f32`/`f64` fields are modelled as `Rat`: the layer only copies these
  values (no floating-point arithmetic is performed), so the representation
  is exact for every literal the code writes.
- Machine-integer casts: `usize -> i32` via `try_into` is `usizeTryIntoI32`
  (fails above `i32::MAX`), the unchecked `as i32` cast is `wrapI32`.
-/

/-- A C string pointer as seen by the engine. -/
inductive CStr where
  | null
  | lit (s : String)
  | platformDefault
deriving DecidableEq

/-- Modelled from the spec: `cstr_to_string` (in `utils.rs`, not under
`src/`) copies a C string into an owned `String`; the spec describes result
extraction as "copying out of an engine-owned transient result".  The null
pointer and the abstract platform-default string carry no literal content
here. -/
def cstr_to_string : CStr → String
  | CStr.null => ""
  | CStr.lit s => s
  | CStr.platformDefault => ""

/-- Content of a C substructure whose fields are never written individually
in the sources: `mem::zeroed()` produces `.zeroed`. -/
inductive RawStructBytes where
  | zeroed
  | nonzero (tag : Nat)
deriving DecidableEq

/-- `bool::into()` for a C `int` field. -/
def boolToCInt (b : Bool) : Int := if b then 1 else 0

/-- `config.provider.unwrap_or(get_default_provider())` followed by
`cstring_from_str`. -/
def providerValue : Option String → CStr
  | none => CStr.platformDefault
  | some s => CStr.lit s

/-- `usize -> i32` conversion by `try_into()`: `none` models the `Err`
that `unwrap()` turns into a panic. -/
def usizeTryIntoI32 (n : Nat) : Option Int :=
  if n ≤ 2147483647 then some (n : Int) else none

/-- Unchecked `as i32` cast from an unsigned machine integer: truncate to
32 bits, then reinterpret as two's-complement. -/
def wrapI32 (n : Nat) : Int :=
  let m := n % 4294967296
  if m < 2147483648 then (m : Int) else (m : Int) - 4294967296

/- ## Engine descriptor structures (`sherpa_rs_sys`) as the sources fill them -/

structure SherpaOnnxOnlineTransducerModelConfig where
  encoder : CStr
  decoder : CStr
  joiner : CStr
deriving DecidableEq

structure SherpaOnnxOnlineModelConfig where
  transducer : SherpaOnnxOnlineTransducerModelConfig
  paraformer : RawStructBytes
  nemo_ctc : RawStructBytes
  zipformer2_ctc : RawStructBytes
  tokens : CStr
  num_threads : Int
  debug : Int
  provider : CStr
  model_type : CStr
  modeling_unit : CStr
  bpe_vocab : CStr
  tokens_buf : CStr
  tokens_buf_size : Int
deriving DecidableEq

structure SherpaOnnxFeatureConfig where
  sample_rate : Int
  feature_dim : Int
deriving DecidableEq

structure SherpaOnnxOnlineRecognizerConfig where
  feat_config : SherpaOnnxFeatureConfig
  model_config : SherpaOnnxOnlineModelConfig
  decoding_method : CStr
  max_active_paths : Int
  enable_endpoint : Int
  rule1_min_trailing_silence : Rat
  rule2_min_trailing_silence : Rat
  rule3_min_utterance_length : Rat
  hotwords_file : CStr
  hotwords_score : Rat
  ctc_fst_decoder_config : RawStructBytes
  rule_fsts : CStr
  rule_fars : CStr
  blank_penalty : Rat
  hotwords_buf : CStr
  hotwords_buf_size : Int
  hr : RawStructBytes
deriving DecidableEq

structure SherpaOnnxOfflineParaformerModelConfig where
  model : CStr
deriving DecidableEq

structure SherpaOnnxOfflineNemoEncDecCtcModelConfig where
  model : CStr
deriving DecidableEq

structure SherpaOnnxOfflineTdnnModelConfig where
  model : CStr
deriving DecidableEq

structure SherpaOnnxOfflineFireRedAsrModelConfig where
  encoder : CStr
  decoder : CStr
deriving DecidableEq

structure SherpaOnnxOfflineTransducerModelConfig where
  encoder : CStr
  decoder : CStr
  joiner : CStr
deriving DecidableEq

structure SherpaOnnxOfflineWhisperModelConfig where
  encoder : CStr
  decoder : CStr
  language : CStr
  task : CStr
  tail_paddings : Int
deriving DecidableEq

structure SherpaOnnxOfflineSenseVoiceModelConfig where
  model : CStr
  language : CStr
  use_itn : Int
deriving DecidableEq

structure SherpaOnnxOfflineMoonshineModelConfig where
  preprocessor : CStr
  encoder : CStr
  uncached_decoder : CStr
  cached_decoder : CStr
deriving DecidableEq

structure SherpaOnnxOfflineModelConfig where
  debug : Int
  num_threads : Int
  provider : CStr
  tokens : CStr
  paraformer : SherpaOnnxOfflineParaformerModelConfig
  dolphin : RawStructBytes
  bpe_vocab : CStr
  model_type : CStr
  modeling_unit : CStr
  nemo_ctc : SherpaOnnxOfflineNemoEncDecCtcModelConfig
  tdnn : SherpaOnnxOfflineTdnnModelConfig
  telespeech_ctc : CStr
  fire_red_asr : SherpaOnnxOfflineFireRedAsrModelConfig
  transducer : SherpaOnnxOfflineTransducerModelConfig
  whisper : SherpaOnnxOfflineWhisperModelConfig
  sense_voice : SherpaOnnxOfflineSenseVoiceModelConfig
  moonshine : SherpaOnnxOfflineMoonshineModelConfig
deriving DecidableEq

structure SherpaOnnxOfflineLMConfig where
  model : CStr
  scale : Rat
deriving DecidableEq

structure SherpaOnnxOfflineRecognizerConfig where
  decoding_method : CStr
  feat_config : SherpaOnnxFeatureConfig
  model_config : SherpaOnnxOfflineModelConfig
  hotwords_file : CStr
  hotwords_score : Rat
  lm_config : SherpaOnnxOfflineLMConfig
  max_active_paths : Int
  rule_fars : CStr
  rule_fsts : CStr
  blank_penalty : Rat
deriving DecidableEq

/- ## User-facing configuration structs -/

structure OnlineTransducerConfig where
  decoder : String
  encoder : String
  joiner : String
  tokens : String
  num_threads : Int
  sample_rate : Int
  feature_dim : Int
  decoding_method : String
  hotwords_file : String
  hotwords_score : Rat
  modeling_unit : String
  bpe_vocab : String
  blank_penalty : Rat
  model_type : String
  debug : Bool
  provider : Option String
  enable_endpoint : Bool
  rule1_min_trailing_silence : Rat
  rule2_min_trailing_silence : Rat
  rule3_min_utterance_length : Rat
  max_active_paths : Int
deriving DecidableEq

/-- `impl Default for OnlineTransducerConfig`. -/
def OnlineTransducerConfig.defaultConfig : OnlineTransducerConfig where
  decoder := ""
  encoder := ""
  joiner := ""
  tokens := ""
  model_type := "transducer"
  num_threads := 1
  sample_rate := 16000
  feature_dim := 80
  decoding_method := "greedy_search"
  hotwords_file := ""
  hotwords_score := 1.0
  modeling_unit := ""
  bpe_vocab := ""
  blank_penalty := 0.0
  debug := false
  provider := none
  enable_endpoint := true
  rule1_min_trailing_silence := 2.4
  rule2_min_trailing_silence := 1.2
  rule3_min_utterance_length := 20.0
  max_active_paths := 4

structure ZipFormerOnlineConfig where
  decoder : String
  encoder : String
  joiner : String
  tokens : String
  num_threads : Option Int
  provider : Option String
  debug : Bool
  sample_rate : Option Int
  feature_dim : Option Int
  decoding_method : Option String
deriving DecidableEq

/-- `#[derive(Default)]` for `ZipFormerOnlineConfig`. -/
def ZipFormerOnlineConfig.defaultConfig : ZipFormerOnlineConfig where
  decoder := ""
  encoder := ""
  joiner := ""
  tokens := ""
  num_threads := none
  provider := none
  debug := false
  sample_rate := none
  feature_dim := none
  decoding_method := none

structure ParaformerConfig where
  model : String
  tokens : String
  provider : Option String
  num_threads : Option Int
  debug : Bool
deriving DecidableEq

/-- `impl Default for ParaformerConfig`. -/
def ParaformerConfig.defaultConfig : ParaformerConfig where
  model := ""
  tokens := ""
  debug := false
  provider := none
  num_threads := some 1

/- ## Descriptor builders (the descriptor each `new` passes to the engine) -/

/-- The `SherpaOnnxOnlineRecognizerConfig` built by
`OnlineTransducerRecognizer::new` before calling the engine constructor. -/
def OnlineTransducerRecognizer.buildRecognizerConfig
    (config : OnlineTransducerConfig) : SherpaOnnxOnlineRecognizerConfig where
  feat_config :=
    { sample_rate := config.sample_rate
      feature_dim := config.feature_dim }
  model_config :=
    { transducer :=
        { encoder := CStr.lit config.encoder
          decoder := CStr.lit config.decoder
          joiner := CStr.lit config.joiner }
      tokens := CStr.lit config.tokens
      num_threads := config.num_threads
      debug := boolToCInt config.debug
      provider := providerValue config.provider
      model_type := CStr.lit config.model_type
      modeling_unit := CStr.lit config.modeling_unit
      bpe_vocab := CStr.lit config.bpe_vocab
      tokens_buf := CStr.null
      tokens_buf_size := 0
      paraformer := RawStructBytes.zeroed
      nemo_ctc := RawStructBytes.zeroed
      zipformer2_ctc := RawStructBytes.zeroed }
  decoding_method := CStr.lit config.decoding_method
  max_active_paths := config.max_active_paths
  enable_endpoint := boolToCInt config.enable_endpoint
  rule1_min_trailing_silence := config.rule1_min_trailing_silence
  rule2_min_trailing_silence := config.rule2_min_trailing_silence
  rule3_min_utterance_length := config.rule3_min_utterance_length
  hotwords_file := CStr.lit config.hotwords_file
  hotwords_score := config.hotwords_score
  ctc_fst_decoder_config := RawStructBytes.zeroed
  rule_fsts := CStr.null
  rule_fars := CStr.null
  blank_penalty := config.blank_penalty
  hotwords_buf := CStr.null
  hotwords_buf_size := 0
  hr := RawStructBytes.zeroed

/-- The `SherpaOnnxOnlineRecognizerConfig` built by `ZipFormerOnline::new`:
endpoint, hotwords and search-path fields are all `mem::zeroed()`. -/
def ZipFormerOnline.buildRecognizerConfig
    (config : ZipFormerOnlineConfig) : SherpaOnnxOnlineRecognizerConfig where
  feat_config :=
    { sample_rate := config.sample_rate.getD 16000
      feature_dim := config.feature_dim.getD 80 }
  model_config :=
    { transducer :=
        { encoder := CStr.lit config.encoder
          decoder := CStr.lit config.decoder
          joiner := CStr.lit config.joiner }
      tokens := CStr.lit config.tokens
      num_threads := config.num_threads.getD 1
      debug := boolToCInt config.debug
      provider := providerValue config.provider
      paraformer := RawStructBytes.zeroed
      zipformer2_ctc := RawStructBytes.zeroed
      model_type := CStr.null
      modeling_unit := CStr.null
      bpe_vocab := CStr.null
      tokens_buf := CStr.null
      tokens_buf_size := 0
      nemo_ctc := RawStructBytes.zeroed }
  decoding_method := CStr.lit (config.decoding_method.getD "greedy_search")
  enable_endpoint := 0
  hotwords_file := CStr.null
  hotwords_score := 0
  ctc_fst_decoder_config := RawStructBytes.zeroed
  rule_fsts := CStr.null
  rule_fars := CStr.null
  blank_penalty := 0
  hotwords_buf := CStr.null
  hotwords_buf_size := 0
  hr := RawStructBytes.zeroed
  max_active_paths := 0
  rule1_min_trailing_silence := 0
  rule2_min_trailing_silence := 0
  rule3_min_utterance_length := 0

/-- The `SherpaOnnxOfflineRecognizerConfig` built by
`ParaformerRecognizer::new`. -/
def ParaformerRecognizer.buildRecognizerConfig
    (config : ParaformerConfig) : SherpaOnnxOfflineRecognizerConfig where
  decoding_method := CStr.lit "greedy_search"
  feat_config :=
    { sample_rate := 16000
      feature_dim := 80 }
  model_config :=
    { debug := boolToCInt config.debug
      num_threads := config.num_threads.getD 1
      provider := providerValue config.provider
      tokens := CStr.lit config.tokens
      paraformer := { model := CStr.lit config.model }
      dolphin := RawStructBytes.zeroed
      bpe_vocab := CStr.null
      model_type := CStr.null
      modeling_unit := CStr.null
      nemo_ctc := { model := CStr.null }
      tdnn := { model := CStr.null }
      telespeech_ctc := CStr.null
      fire_red_asr := { encoder := CStr.null, decoder := CStr.null }
      transducer := { encoder := CStr.null, decoder := CStr.null, joiner := CStr.null }
      whisper :=
        { encoder := CStr.null
          decoder := CStr.null
          language := CStr.null
          task := CStr.null
          tail_paddings := 0 }
      sense_voice := { model := CStr.null, language := CStr.null, use_itn := 0 }
      moonshine :=
        { preprocessor := CStr.null
          encoder := CStr.null
          uncached_decoder := CStr.null
          cached_decoder := CStr.null } }
  hotwords_file := CStr.null
  hotwords_score := 0.0
  lm_config := { model := CStr.null, scale := 0.0 }
  max_active_paths := 0
  rule_fars := CStr.null
  rule_fsts := CStr.null
  blank_penalty := 0.0

/- ## FFI event traces and handle-owning values -/

/-- One FFI call into the engine.  Creation events carry the descriptor
passed; handle arguments are the raw pointer values. -/
inductive EngineEv where
  | createOnlineRecognizer (cfg : SherpaOnnxOnlineRecognizerConfig)
  | destroyOnlineRecognizer (h : Nat)
  | createOnlineStream (rec : Nat)
  | destroyOnlineStream (h : Nat)
  | onlineStreamAcceptWaveform (stream : Nat) (rate : Int) (count : Int)
  | decodeOnlineStream (rec : Nat) (stream : Nat)
  | getOnlineStreamResult (rec : Nat) (stream : Nat)
  | destroyOnlineRecognizerResult
  | onlineStreamInputFinished (stream : Nat)
  | onlineStreamReset (rec : Nat) (stream : Nat)
  | createOfflineRecognizer (cfg : SherpaOnnxOfflineRecognizerConfig)
  | destroyOfflineRecognizer (h : Nat)
  | createOfflineStream (rec : Nat)
  | destroyOfflineStream (h : Nat)
  | acceptWaveformOffline (stream : Nat) (rate : Int) (count : Int)
  | decodeOfflineStream (rec : Nat) (stream : Nat)
  | getOfflineStreamResult (stream : Nat)
  | destroyOfflineRecognizerResult
deriving DecidableEq

/-- Does this event destroy an online stream handle? -/
def EngineEv.isDestroyOnlineStream : EngineEv → Bool
  | EngineEv.destroyOnlineStream _ => true
  | _ => false

/-- Does this event destroy an offline (batch) stream handle? -/
def EngineEv.isDestroyOfflineStream : EngineEv → Bool
  | EngineEv.destroyOfflineStream _ => true
  | _ => false

/-- Does this event create or destroy an offline recognizer handle? -/
def EngineEv.touchesOfflineRecognizer : EngineEv → Bool
  | EngineEv.createOfflineRecognizer _ => true
  | EngineEv.destroyOfflineRecognizer _ => true
  | _ => false

/-- Is this event the offline (batch) decode call? -/
def EngineEv.isDecodeOffline : EngineEv → Bool
  | EngineEv.decodeOfflineStream _ _ => true
  | _ => false

/-- Is this event the offline (batch) accept-waveform call? -/
def EngineEv.isAcceptOffline : EngineEv → Bool
  | EngineEv.acceptWaveformOffline _ _ _ => true
  | _ => false

/-- `OnlineTransducerRecognizer`: owns the recognizer and the stream. -/
structure OnlineTransducerRecognizer where
  recognizer : Nat
  stream : Nat
deriving DecidableEq

/-- `ZipFormerOnline`: holds only the recognizer pointer (the
`stream_ptr` field is commented out in the source). -/
structure ZipFormerOnline where
  recognizer_ptr : Nat
deriving DecidableEq

/-- `ParaformerRecognizer`: owns only the offline recognizer. -/
structure ParaformerRecognizer where
  recognizer : Nat
deriving DecidableEq

/-- `StreamingError` from `zipformer_online.rs`. -/
inductive StreamingError where
  | DecodingFailed (code : Int)
  | StreamNotReady
  | InvalidState
  | ConfigError
deriving DecidableEq

/-- A call that panicked (`unwrap()` on `Err`). -/
inductive PanicOutcome where
  | panicked
deriving DecidableEq

/-- Undefined behavior reached (raw-pointer dereference of null). -/
inductive UndefinedBehavior where
  | nullDeref
deriving DecidableEq

/- ## Constructors, `Drop` glue, and methods as oracle-driven models -/

/-- `OnlineTransducerRecognizer::new`: builds the descriptor, creates the
recognizer (oracle `recRes`), then the stream (oracle `streamRes`); on a
null stream the just-created recognizer is destroyed before bailing. -/
def OnlineTransducerRecognizer.newModel (config : OnlineTransducerConfig)
    (recRes streamRes : Option Nat) :
    Except String OnlineTransducerRecognizer × List EngineEv :=
  let cfg := OnlineTransducerRecognizer.buildRecognizerConfig config
  match recRes with
  | none =>
      (Except.error "SherpaOnnxCreateOnlineRecognizer failed",
       [EngineEv.createOnlineRecognizer cfg])
  | some r =>
      match streamRes with
      | none =>
          (Except.error "SherpaOnnxCreateOnlineStream failed",
           [EngineEv.createOnlineRecognizer cfg, EngineEv.createOnlineStream r,
            EngineEv.destroyOnlineRecognizer r])
      | some st =>
          (Except.ok { recognizer := r, stream := st },
           [EngineEv.createOnlineRecognizer cfg, EngineEv.createOnlineStream r])

/-- `impl Drop for OnlineTransducerRecognizer`: destroy the stream, then
the recognizer. -/
def OnlineTransducerRecognizer.dropModel (v : OnlineTransducerRecognizer) :
    List EngineEv :=
  [EngineEv.destroyOnlineStream v.stream, EngineEv.destroyOnlineRecognizer v.recognizer]

/-- `ZipFormerOnline::new`: same creation sequence, but the returned value
retains only the recognizer pointer; the created stream handle is
discarded. -/
def ZipFormerOnline.newModel (config : ZipFormerOnlineConfig)
    (recRes streamRes : Option Nat) :
    Except StreamingError ZipFormerOnline × List EngineEv :=
  let cfg := ZipFormerOnline.buildRecognizerConfig config
  match recRes with
  | none =>
      (Except.error StreamingError.ConfigError,
       [EngineEv.createOnlineRecognizer cfg])
  | some r =>
      match streamRes with
      | none =>
          (Except.error StreamingError.ConfigError,
           [EngineEv.createOnlineRecognizer cfg, EngineEv.createOnlineStream r,
            EngineEv.destroyOnlineRecognizer r])
      | some _ =>
          (Except.ok { recognizer_ptr := r },
           [EngineEv.createOnlineRecognizer cfg, EngineEv.createOnlineStream r])

/-- `impl Drop for ZipFormerOnline`: destroys only the recognizer. -/
def ZipFormerOnline.dropModel (v : ZipFormerOnline) : List EngineEv :=
  [EngineEv.destroyOnlineRecognizer v.recognizer_ptr]

/-- `ParaformerRecognizer::new`: builds the offline descriptor and creates
the recognizer (oracle `recRes`). -/
def ParaformerRecognizer.newModel (config : ParaformerConfig)
    (recRes : Option Nat) :
    Except String ParaformerRecognizer × List EngineEv :=
  let cfg := ParaformerRecognizer.buildRecognizerConfig config
  match recRes with
  | none =>
      (Except.error "Failed to create Paraformer recognizer",
       [EngineEv.createOfflineRecognizer cfg])
  | some r =>
      (Except.ok { recognizer := r },
       [EngineEv.createOfflineRecognizer cfg])

/-- `impl Drop for ParaformerRecognizer`. -/
def ParaformerRecognizer.dropModel (v : ParaformerRecognizer) : List EngineEv :=
  [EngineEv.destroyOfflineRecognizer v.recognizer]

/-- The engine-owned transient online result struct (only its `text`
pointer is read by the sources). -/
structure SherpaOnnxOnlineRecognizerResultRaw where
  text : CStr
deriving DecidableEq

/-- The engine-owned transient offline result struct. -/
structure SherpaOnnxOfflineRecognizerResultRaw where
  text : CStr
deriving DecidableEq

/-- Modelled from the spec: `OfflineRecognizerResult` and its `new` live in
`lib.rs`, which is not under `src/`; the spec defines the result as an
immutable snapshot whose transcript text is copied out of the engine-owned
transient result. -/
structure OfflineRecognizerResult where
  text : String
deriving DecidableEq

def OfflineRecognizerResult.new (raw : SherpaOnnxOfflineRecognizerResultRaw) :
    OfflineRecognizerResult :=
  { text := cstr_to_string raw.text }

abbrev ParaformerRecognizerResult := OfflineRecognizerResult

/-- `OnlineTransducerRecognizer::get_result`: a null result pointer yields
the empty string; otherwise the text is copied and the transient result
destroyed. -/
def OnlineTransducerRecognizer.getResultModel
    (resultRes : Option SherpaOnnxOnlineRecognizerResultRaw) : String :=
  match resultRes with
  | none => ""
  | some raw => cstr_to_string raw.text

/-- `ZipFormerOnline::get_result`: null result pointer yields the empty
string; a null `text` pointer inside a non-null result also yields "". -/
def ZipFormerOnline.getResultModel
    (resultRes : Option SherpaOnnxOnlineRecognizerResultRaw) : String :=
  match resultRes with
  | none => ""
  | some raw =>
      if raw.text ≠ CStr.null then cstr_to_string raw.text else ""

/-- `OnlineTransducerRecognizer::accept_waveform`:
`samples.len().try_into().unwrap()` panics above `i32::MAX`; otherwise the
exact length is passed as the sample count. -/
def OnlineTransducerRecognizer.acceptWaveformModel (v : OnlineTransducerRecognizer)
    (sample_rate : Nat) (samples : List Rat) :
    Except PanicOutcome (List EngineEv) :=
  match usizeTryIntoI32 samples.length with
  | none => Except.error PanicOutcome.panicked
  | some c =>
      Except.ok [EngineEv.onlineStreamAcceptWaveform v.stream (wrapI32 sample_rate) c]

/-- `ParaformerRecognizer::transcribe`: create stream, accept the whole
buffer, decode once, read the result pointer (unchecked: a null result is
a null dereference), destroy the transient result, destroy the stream. -/
def ParaformerRecognizer.transcribeModel (v : ParaformerRecognizer)
    (streamH : Nat) (resultRes : Option SherpaOnnxOfflineRecognizerResultRaw)
    (sample_rate : Nat) (samples : List Rat) :
    Except UndefinedBehavior OfflineRecognizerResult × List EngineEv :=
  let pre : List EngineEv :=
    [EngineEv.createOfflineStream v.recognizer,
     EngineEv.acceptWaveformOffline streamH (wrapI32 sample_rate) (wrapI32 samples.length),
     EngineEv.decodeOfflineStream v.recognizer streamH,
     EngineEv.getOfflineStreamResult streamH]
  match resultRes with
  | none => (Except.error UndefinedBehavior.nullDeref, pre)
  | some raw =>
      (Except.ok (OfflineRecognizerResult.new raw),
       pre ++ [EngineEv.destroyOfflineRecognizerResult,
               EngineEv.destroyOfflineStream streamH])

/- ## Engine stream state and streaming protocol (spec-modelled engine) -/

/-- Modelled from the spec: the engine-internal per-stream state visible
through the consumed contract.  `pendingFrames` counts buffered decodable
units (`is_ready` is true while it is positive, `decode` consumes one),
`transientText` is what `get_result` would return (`none` = null), and
`inputDone` records that `input_finished` was signalled. -/
structure EngineStreamState where
  pendingFrames : Nat
  transientText : Option String
  inputDone : Bool
deriving DecidableEq

/-- `SherpaOnnxIsOnlineStreamReady`. -/
def engineIsReady (s : EngineStreamState) : Bool :=
  s.pendingFrames != 0

/-- `SherpaOnnxDecodeOnlineStream`: consumes one buffered decodable unit. -/
def engineDecodeStep (s : EngineStreamState) : EngineStreamState :=
  { s with pendingFrames := s.pendingFrames - 1 }

/-- `SherpaOnnxOnlineStreamInputFinished`: marks the stream finished. -/
def engineInputFinishedStep (s : EngineStreamState) : EngineStreamState :=
  { s with inputDone := true }

/-- Modelled from the spec: `SherpaOnnxOnlineStreamReset` "clears
engine-internal utterance state for reuse", rebinding the stream to a
fresh utterance. -/
def engineResetState (_ : EngineStreamState) : EngineStreamState :=
  { pendingFrames := 0, transientText := none, inputDone := false }

/-- The `while is_ready { decode }` loop, with fuel for termination. -/
def drainLoopAux : Nat → EngineStreamState → EngineStreamState
  | 0, s => s
  | fuel + 1, s =>
      if engineIsReady s then drainLoopAux fuel (engineDecodeStep s) else s

/-- Drain the stream: loop `decode` while `is_ready`. -/
def drainWhileReady (s : EngineStreamState) : EngineStreamState :=
  drainLoopAux s.pendingFrames s

/-- `OnlineTransducerRecognizer::input_finished`: signal end of input, then
drain by looping decode while ready. -/
def OnlineTransducerRecognizer.inputFinishedModel (s : EngineStreamState) :
    EngineStreamState :=
  drainWhileReady (engineInputFinishedStep s)

/-- `ZipFormerOnline::input_finished`: only signals end of input; there is
no drain loop in the source. -/
def ZipFormerOnline.inputFinishedModel (s : EngineStreamState) :
    EngineStreamState :=
  engineInputFinishedStep s

/-- Session phases of the streaming protocol state machine (spec §4.4). -/
inductive SessionPhase where
  | Idle
  | Accepting
  | Ready
  | Endpoint
  | Finished
deriving DecidableEq

/-- A streaming session: protocol phase plus the engine stream state it
drives. -/
structure StreamingSessionModel where
  phase : SessionPhase
  engine : EngineStreamState
deriving DecidableEq

/-- `reset()` as the wrapper performs it: one engine reset call; the
session is back to accepting a fresh utterance. -/
def StreamingSessionModel.resetOp (s : StreamingSessionModel) :
    StreamingSessionModel :=
  { phase := SessionPhase.Accepting, engine := engineResetState s.engine }

/-- `get_result()` through the wrapper: a null transient result (fresh
utterance) is the empty transcript. -/
def StreamingSessionModel.getResultOp (s : StreamingSessionModel) : String :=
  match s.engine.transientText with
  | none => ""
  | some t => t

/- ## Helper lemmas -/

/-- The drain loop with enough fuel zeroes `pendingFrames` and changes
nothing else. -/
theorem drainLoopAux_spec (fuel : Nat) :
    ∀ s : EngineStreamState, s.pendingFrames ≤ fuel →
      drainLoopAux fuel s = { s with pendingFrames := 0 } := by
  induction fuel with
  | zero =>
      intro s h
      have h0 : s.pendingFrames = 0 := Nat.le_zero.mp h
      cases s with
      | mk p t d =>
          simp only [drainLoopAux]
          simp_all
  | succ n ih =>
      intro s h
      cases s with
      | mk p t d =>
          cases p with
          | zero => simp [drainLoopAux, engineIsReady]
          | succ m =>
              have hle : m ≤ n := by
                simp only at h
                omega
              have hrec := ih { pendingFrames := m, transientText := t, inputDone := d } hle
              simpa [drainLoopAux, engineIsReady, engineDecodeStep] using hrec

/-- Draining a stream always reaches `pendingFrames = 0`, preserving the
other state components. -/
theorem drainWhileReady_spec (s : EngineStreamState) :
    drainWhileReady s = { s with pendingFrames := 0 } :=
  drainLoopAux_spec s.pendingFrames s (Nat.le_refl _)

/- ## Claim theorems -/

/-- C1 counterexample: a `ZipFormerOnline` constructed successfully with
recognizer handle 1 and stream handle 2 is later dropped, and its drop
destroys no stream at all — in particular the stream is not destroyed
before the recognizer — refuting the claim that on every exit path the
stream is destroyed and then the recognizer. -/
theorem c1_zipformer_drop_never_destroys_stream :
    (ZipFormerOnline.newModel ZipFormerOnlineConfig.defaultConfig (some 1) (some 2)).1 =
      Except.ok { recognizer_ptr := 1 } ∧
    (ZipFormerOnline.dropModel { recognizer_ptr := 1 }).all
      (fun e => !(e.isDestroyOnlineStream)) = true :=
  ⟨rfl, rfl⟩

/-- C1 (amended): when stream creation fails during construction, both
online constructors destroy the just-created recognizer before returning
the error (no leaked recognizer); on drop, `OnlineTransducerRecognizer`
destroys the stream and then the recognizer, while `ZipFormerOnline`
destroys only the recognizer and never any stream. -/
theorem c1_destruction_order (tc : OnlineTransducerConfig)
    (zc : ZipFormerOnlineConfig) (r : Nat)
    (v : OnlineTransducerRecognizer) (z : ZipFormerOnline) :
    OnlineTransducerRecognizer.newModel tc (some r) none =
      (Except.error "SherpaOnnxCreateOnlineStream failed",
       [EngineEv.createOnlineRecognizer (OnlineTransducerRecognizer.buildRecognizerConfig tc),
        EngineEv.createOnlineStream r, EngineEv.destroyOnlineRecognizer r]) ∧
    ZipFormerOnline.newModel zc (some r) none =
      (Except.error StreamingError.ConfigError,
       [EngineEv.createOnlineRecognizer (ZipFormerOnline.buildRecognizerConfig zc),
        EngineEv.createOnlineStream r, EngineEv.destroyOnlineRecognizer r]) ∧
    OnlineTransducerRecognizer.dropModel v =
      [EngineEv.destroyOnlineStream v.stream,
       EngineEv.destroyOnlineRecognizer v.recognizer] ∧
    ZipFormerOnline.dropModel z = [EngineEv.destroyOnlineRecognizer z.recognizer_ptr] ∧
    (ZipFormerOnline.dropModel z).all (fun e => !(e.isDestroyOnlineStream)) = true :=
  ⟨rfl, rfl, rfl, rfl, rfl⟩

/-- C2 counterexample: with two buffered decodable units,
`ZipFormerOnline::input_finished` returns while the engine still reports
readiness — refuting the claim that `input_finished` never returns while
`is_ready()` is true. -/
theorem c2_zipformer_input_finished_no_drain :
    engineIsReady (ZipFormerOnline.inputFinishedModel
      { pendingFrames := 2, transientText := none, inputDone := false }) = true :=
  rfl

/-- C2 (amended): `OnlineTransducerRecognizer::input_finished` signals end
of input and then drains by looping decode while ready, so it never
returns while the engine reports readiness; `ZipFormerOnline`'s
`input_finished` only signals end of input and returns with the buffered
frames untouched. -/
theorem c2_input_finished_drain (s : EngineStreamState) :
    engineIsReady (OnlineTransducerRecognizer.inputFinishedModel s) = false ∧
    (OnlineTransducerRecognizer.inputFinishedModel s).inputDone = true ∧
    ZipFormerOnline.inputFinishedModel s = { s with inputDone := true } := by
  refine ⟨?_, ?_, rfl⟩
  · unfold OnlineTransducerRecognizer.inputFinishedModel
    rw [drainWhileReady_spec]
    simp [engineIsReady]
  · unfold OnlineTransducerRecognizer.inputFinishedModel
    rw [drainWhileReady_spec]
    simp [engineInputFinishedStep]

/-- C3 counterexample: when the engine returns a null transient result,
`ParaformerRecognizer::transcribe` reads through the null pointer
(`result_ptr.read()` with no null check) instead of producing an empty
transcript — refuting the claim for the batch path. -/
theorem c3_paraformer_transcribe_null_deref :
    (ParaformerRecognizer.transcribeModel { recognizer := 1 } 2 none 16000 []).1 =
      Except.error UndefinedBehavior.nullDeref ∧
    (ParaformerRecognizer.transcribeModel { recognizer := 1 } 2 none 16000 []).1.isOk =
      false :=
  ⟨rfl, rfl⟩

/-- C3 (amended): both streaming `get_result` paths treat a null transient
result pointer as an empty transcript without error; the batch
`transcribe` path instead dereferences the result pointer unconditionally,
so a null transient result there is a null dereference, not an empty
transcript. -/
theorem c3_null_result_handling (v : ParaformerRecognizer) (streamH rate : Nat)
    (samples : List Rat) :
    OnlineTransducerRecognizer.getResultModel none = "" ∧
    ZipFormerOnline.getResultModel none = "" ∧
    (ParaformerRecognizer.transcribeModel v streamH none rate samples).1 =
      Except.error UndefinedBehavior.nullDeref :=
  ⟨rfl, rfl, rfl⟩

/-- C4 counterexample: the descriptor `ZipFormerOnline::new` builds from
the all-unspecified default configuration does not carry the claimed
streaming defaults: endpoint detection is disabled (0, not enabled),
the trailing-silence and utterance-length thresholds are 0 rather than
2.4 / 1.2 / 20.0, and `max_active_paths` is 0 rather than 4. -/
theorem c4_zipformer_defaults_lack_streaming_values :
    (ZipFormerOnline.buildRecognizerConfig ZipFormerOnlineConfig.defaultConfig).enable_endpoint ≠
      boolToCInt true ∧
    (ZipFormerOnline.buildRecognizerConfig
      ZipFormerOnlineConfig.defaultConfig).rule1_min_trailing_silence ≠ 2.4 ∧
    (ZipFormerOnline.buildRecognizerConfig
      ZipFormerOnlineConfig.defaultConfig).rule2_min_trailing_silence ≠ 1.2 ∧
    (ZipFormerOnline.buildRecognizerConfig
      ZipFormerOnlineConfig.defaultConfig).rule3_min_utterance_length ≠ 20.0 ∧
    (ZipFormerOnline.buildRecognizerConfig
      ZipFormerOnlineConfig.defaultConfig).max_active_paths ≠ 4 := by
  refine ⟨?_, ?_, ?_, ?_, ?_⟩
  · show (0 : Int) ≠ boolToCInt true
    decide
  · show (0 : Rat) ≠ 2.4
    norm_num
  · show (0 : Rat) ≠ 1.2
    norm_num
  · show (0 : Rat) ≠ 20.0
    norm_num
  · show (0 : Int) ≠ 4
    decide

/-- C4 (amended): with optional fields unspecified, every descriptor
carries sample rate 16000, feature dimension 80, decoding method
"greedy_search", thread count 1 and the platform-default provider; the
streaming extras (endpoint detection enabled, thresholds 2.4 / 1.2,
minimum utterance length 20.0, max active paths 4) hold for the default
`OnlineTransducerConfig` only, while `ZipFormerOnline` zero-fills them
(endpoint disabled, thresholds 0, max active paths 0). -/
theorem c4_default_descriptor_values (zc : ZipFormerOnlineConfig)
    (pc : ParaformerConfig) :
    (OnlineTransducerRecognizer.buildRecognizerConfig
        OnlineTransducerConfig.defaultConfig).feat_config =
      { sample_rate := 16000, feature_dim := 80 } ∧
    (OnlineTransducerRecognizer.buildRecognizerConfig
        OnlineTransducerConfig.defaultConfig).decoding_method =
      CStr.lit "greedy_search" ∧
    (OnlineTransducerRecognizer.buildRecognizerConfig
        OnlineTransducerConfig.defaultConfig).model_config.num_threads = 1 ∧
    (OnlineTransducerRecognizer.buildRecognizerConfig
        OnlineTransducerConfig.defaultConfig).model_config.provider =
      CStr.platformDefault ∧
    (OnlineTransducerRecognizer.buildRecognizerConfig
        OnlineTransducerConfig.defaultConfig).enable_endpoint = boolToCInt true ∧
    (OnlineTransducerRecognizer.buildRecognizerConfig
        OnlineTransducerConfig.defaultConfig).rule1_min_trailing_silence = 2.4 ∧
    (OnlineTransducerRecognizer.buildRecognizerConfig
        OnlineTransducerConfig.defaultConfig).rule2_min_trailing_silence = 1.2 ∧
    (OnlineTransducerRecognizer.buildRecognizerConfig
        OnlineTransducerConfig.defaultConfig).rule3_min_utterance_length = 20.0 ∧
    (OnlineTransducerRecognizer.buildRecognizerConfig
        OnlineTransducerConfig.defaultConfig).max_active_paths = 4 ∧
    (ZipFormerOnline.buildRecognizerConfig
        { zc with sample_rate := none, feature_dim := none, num_threads := none,
                  provider := none, decoding_method := none }).feat_config =
      { sample_rate := 16000, feature_dim := 80 } ∧
    (ZipFormerOnline.buildRecognizerConfig
        { zc with sample_rate := none, feature_dim := none, num_threads := none,
                  provider := none, decoding_method := none }).decoding_method =
      CStr.lit "greedy_search" ∧
    (ZipFormerOnline.buildRecognizerConfig
        { zc with sample_rate := none, feature_dim := none, num_threads := none,
                  provider := none, decoding_method := none }).model_config.num_threads = 1 ∧
    (ZipFormerOnline.buildRecognizerConfig
        { zc with sample_rate := none, feature_dim := none, num_threads := none,
                  provider := none, decoding_method := none }).model_config.provider =
      CStr.platformDefault ∧
    (ZipFormerOnline.buildRecognizerConfig
        { zc with sample_rate := none, feature_dim := none, num_threads := none,
                  provider := none, decoding_method := none }).enable_endpoint = 0 ∧
    (ZipFormerOnline.buildRecognizerConfig
        { zc with sample_rate := none, feature_dim := none, num_threads := none,
                  provider := none, decoding_method := none }).rule1_min_trailing_silence = 0 ∧
    (ZipFormerOnline.buildRecognizerConfig
        { zc with sample_rate := none, feature_dim := none, num_threads := none,
                  provider := none, decoding_method := none }).rule2_min_trailing_silence = 0 ∧
    (ZipFormerOnline.buildRecognizerConfig
        { zc with sample_rate := none, feature_dim := none, num_threads := none,
                  provider := none, decoding_method := none }).rule3_min_utterance_length = 0 ∧
    (ZipFormerOnline.buildRecognizerConfig
        { zc with sample_rate := none, feature_dim := none, num_threads := none,
                  provider := none, decoding_method := none }).max_active_paths = 0 ∧
    (ParaformerRecognizer.buildRecognizerConfig
        { pc with provider := none, num_threads := none }).feat_config =
      { sample_rate := 16000, feature_dim := 80 } ∧
    (ParaformerRecognizer.buildRecognizerConfig
        { pc with provider := none, num_threads := none }).decoding_method =
      CStr.lit "greedy_search" ∧
    (ParaformerRecognizer.buildRecognizerConfig
        { pc with provider := none, num_threads := none }).model_config.num_threads = 1 ∧
    (ParaformerRecognizer.buildRecognizerConfig
        { pc with provider := none, num_threads := none }).model_config.provider =
      CStr.platformDefault :=
  ⟨rfl, rfl, rfl, rfl, rfl, rfl, rfl, rfl, rfl, rfl, rfl, rfl, rfl, rfl, rfl, rfl,
   rfl, rfl, rfl, rfl, rfl, rfl⟩

/-- C5: every descriptor builder sets each model-family substructure other
than the selected family to the explicit absent sentinel (all-zero bytes
for opaque substructures, null pointers and zero scalars for the typed
ones), and populates the selected family from the configuration. -/
theorem c5_unused_family_slots_absent (tc : OnlineTransducerConfig)
    (zc : ZipFormerOnlineConfig) (pc : ParaformerConfig) :
    (OnlineTransducerRecognizer.buildRecognizerConfig tc).model_config.paraformer =
      RawStructBytes.zeroed ∧
    (OnlineTransducerRecognizer.buildRecognizerConfig tc).model_config.nemo_ctc =
      RawStructBytes.zeroed ∧
    (OnlineTransducerRecognizer.buildRecognizerConfig tc).model_config.zipformer2_ctc =
      RawStructBytes.zeroed ∧
    (OnlineTransducerRecognizer.buildRecognizerConfig tc).model_config.transducer =
      { encoder := CStr.lit tc.encoder, decoder := CStr.lit tc.decoder,
        joiner := CStr.lit tc.joiner } ∧
    (ZipFormerOnline.buildRecognizerConfig zc).model_config.paraformer =
      RawStructBytes.zeroed ∧
    (ZipFormerOnline.buildRecognizerConfig zc).model_config.nemo_ctc =
      RawStructBytes.zeroed ∧
    (ZipFormerOnline.buildRecognizerConfig zc).model_config.zipformer2_ctc =
      RawStructBytes.zeroed ∧
    (ZipFormerOnline.buildRecognizerConfig zc).model_config.transducer =
      { encoder := CStr.lit zc.encoder, decoder := CStr.lit zc.decoder,
        joiner := CStr.lit zc.joiner } ∧
    (ParaformerRecognizer.buildRecognizerConfig pc).model_config.dolphin =
      RawStructBytes.zeroed ∧
    (ParaformerRecognizer.buildRecognizerConfig pc).model_config.nemo_ctc =
      { model := CStr.null } ∧
    (ParaformerRecognizer.buildRecognizerConfig pc).model_config.tdnn =
      { model := CStr.null } ∧
    (ParaformerRecognizer.buildRecognizerConfig pc).model_config.telespeech_ctc =
      CStr.null ∧
    (ParaformerRecognizer.buildRecognizerConfig pc).model_config.fire_red_asr =
      { encoder := CStr.null, decoder := CStr.null } ∧
    (ParaformerRecognizer.buildRecognizerConfig pc).model_config.transducer =
      { encoder := CStr.null, decoder := CStr.null, joiner := CStr.null } ∧
    (ParaformerRecognizer.buildRecognizerConfig pc).model_config.whisper =
      { encoder := CStr.null, decoder := CStr.null, language := CStr.null,
        task := CStr.null, tail_paddings := 0 } ∧
    (ParaformerRecognizer.buildRecognizerConfig pc).model_config.sense_voice =
      { model := CStr.null, language := CStr.null, use_itn := 0 } ∧
    (ParaformerRecognizer.buildRecognizerConfig pc).model_config.moonshine =
      { preprocessor := CStr.null, encoder := CStr.null,
        uncached_decoder := CStr.null, cached_decoder := CStr.null } ∧
    (ParaformerRecognizer.buildRecognizerConfig pc).model_config.paraformer =
      { model := CStr.lit pc.model } :=
  ⟨rfl, rfl, rfl, rfl, rfl, rfl, rfl, rfl, rfl, rfl, rfl, rfl, rfl, rfl, rfl, rfl,
   rfl, rfl⟩

/-- C6: each constructor fails exactly when an engine create call returns
a null handle; a null from the engine's recognizer constructor is always
surfaced as an error (an eyre message for the transducer and paraformer
wrappers, `StreamingError::ConfigError` for the zipformer wrapper), and
on success the stored handle is exactly the non-null handle the engine
returned. -/
theorem c6_creation_fails_iff_null (pc : ParaformerConfig)
    (tc : OnlineTransducerConfig) (zc : ZipFormerOnlineConfig) :
    ((ParaformerRecognizer.newModel pc none).1 =
        Except.error "Failed to create Paraformer recognizer") ∧
    (∀ r : Nat, (ParaformerRecognizer.newModel pc (some r)).1 =
        Except.ok { recognizer := r }) ∧
    (∀ rr : Option Nat, (ParaformerRecognizer.newModel pc rr).1.isOk = rr.isSome) ∧
    (∀ rr sr : Option Nat,
        (OnlineTransducerRecognizer.newModel tc rr sr).1.isOk =
          (rr.isSome && sr.isSome)) ∧
    (∀ sr : Option Nat, (OnlineTransducerRecognizer.newModel tc none sr).1 =
        Except.error "SherpaOnnxCreateOnlineRecognizer failed") ∧
    (∀ r st : Nat, (OnlineTransducerRecognizer.newModel tc (some r) (some st)).1 =
        Except.ok { recognizer := r, stream := st }) ∧
    (∀ rr sr : Option Nat,
        (ZipFormerOnline.newModel zc rr sr).1.isOk = (rr.isSome && sr.isSome)) ∧
    (∀ sr : Option Nat, (ZipFormerOnline.newModel zc none sr).1 =
        Except.error StreamingError.ConfigError) ∧
    (∀ r : Nat, (ZipFormerOnline.newModel zc (some r) none).1 =
        Except.error StreamingError.ConfigError) ∧
    (∀ r st : Nat, (ZipFormerOnline.newModel zc (some r) (some st)).1 =
        Except.ok { recognizer_ptr := r }) := by
  refine ⟨rfl, fun r => rfl, fun rr => ?_, fun rr sr => ?_, fun sr => rfl,
          fun r st => rfl, fun rr sr => ?_, fun sr => rfl, fun r => rfl,
          fun r st => rfl⟩
  · cases rr <;> rfl
  · cases rr <;> cases sr <;> rfl
  · cases rr <;> cases sr <;> rfl

/-- C7: on the success path, `ParaformerRecognizer::transcribe` performs
exactly the single-shot sequence — create a transient stream, accept the
whole buffer in one call, decode exactly once, extract and copy the
result, destroy the transient result and then the stream — and no event
of the call creates or destroys the long-lived recognizer. -/
theorem c7_transcribe_single_shot (v : ParaformerRecognizer) (streamH : Nat)
    (raw : SherpaOnnxOfflineRecognizerResultRaw) (rate : Nat)
    (samples : List Rat) :
    ParaformerRecognizer.transcribeModel v streamH (some raw) rate samples =
      (Except.ok { text := cstr_to_string raw.text },
       [EngineEv.createOfflineStream v.recognizer,
        EngineEv.acceptWaveformOffline streamH (wrapI32 rate) (wrapI32 samples.length),
        EngineEv.decodeOfflineStream v.recognizer streamH,
        EngineEv.getOfflineStreamResult streamH,
        EngineEv.destroyOfflineRecognizerResult,
        EngineEv.destroyOfflineStream streamH]) ∧
    (ParaformerRecognizer.transcribeModel v streamH (some raw) rate samples).2.countP
      EngineEv.isDecodeOffline = 1 ∧
    (ParaformerRecognizer.transcribeModel v streamH (some raw) rate samples).2.countP
      EngineEv.isAcceptOffline = 1 ∧
    (ParaformerRecognizer.transcribeModel v streamH (some raw) rate samples).2.all
      (fun e => !(e.touchesOfflineRecognizer)) = true :=
  ⟨rfl, rfl, rfl, rfl⟩

/-- C8: `reset()` is idempotent — the session after any positive number of
consecutive resets (with no intervening `accept_waveform`) is in the
`Accepting` phase and its `get_result` is the empty transcript.  The
engine-side effect of `SherpaOnnxOnlineStreamReset` is modelled from the
spec (it clears the engine-internal utterance state). -/
theorem c8_reset_idempotent (s : StreamingSessionModel) (n : Nat) (h : 1 ≤ n) :
    StreamingSessionModel.resetOp (StreamingSessionModel.resetOp s) =
      StreamingSessionModel.resetOp s ∧
    (StreamingSessionModel.resetOp^[n] s).phase = SessionPhase.Accepting ∧
    StreamingSessionModel.getResultOp (StreamingSessionModel.resetOp^[n] s) = "" := by
  obtain ⟨m, rfl⟩ : ∃ m, n = m + 1 := ⟨n - 1, by omega⟩
  rw [Function.iterate_succ_apply']
  exact ⟨rfl, rfl, rfl⟩

/-- C8 witness: two consecutive resets from a dirty mid-utterance session
land in `Accepting` with an empty result. -/
theorem c8_reset_idempotent_witness :
    (StreamingSessionModel.resetOp^[2]
      { phase := SessionPhase.Idle,
        engine := { pendingFrames := 5, transientText := some "hi",
                    inputDone := false } }).phase = SessionPhase.Accepting ∧
    StreamingSessionModel.getResultOp (StreamingSessionModel.resetOp^[2]
      { phase := SessionPhase.Idle,
        engine := { pendingFrames := 5, transientText := some "hi",
                    inputDone := false } }) = "" :=
  ⟨(c8_reset_idempotent
      { phase := SessionPhase.Idle,
        engine := { pendingFrames := 5, transientText := some "hi",
                    inputDone := false } } 2 (by decide)).2.1,
   (c8_reset_idempotent
      { phase := SessionPhase.Idle,
        engine := { pendingFrames := 5, transientText := some "hi",
                    inputDone := false } } 2 (by decide)).2.2⟩

/-- C9: a successful `ZipFormerOnline::new` returns a value holding only
the recognizer handle — the value is independent of the stream handle the
engine returned — the construction trace never destroys that stream, and
drop destroys only the recognizer, never any stream. -/
theorem c9_zipformer_retains_only_recognizer (zc : ZipFormerOnlineConfig)
    (r st : Nat) :
    ZipFormerOnline.newModel zc (some r) (some st) =
      (Except.ok { recognizer_ptr := r },
       [EngineEv.createOnlineRecognizer (ZipFormerOnline.buildRecognizerConfig zc),
        EngineEv.createOnlineStream r]) ∧
    ZipFormerOnline.dropModel { recognizer_ptr := r } =
      [EngineEv.destroyOnlineRecognizer r] ∧
    (ZipFormerOnline.newModel zc (some r) (some st)).2.all
      (fun e => !(e.isDestroyOnlineStream)) = true ∧
    (ZipFormerOnline.dropModel { recognizer_ptr := r }).all
      (fun e => !(e.isDestroyOnlineStream)) = true :=
  ⟨rfl, rfl, rfl, rfl⟩

/-- C10: `OnlineTransducerRecognizer::accept_waveform` panics exactly when
the slice length exceeds `i32::MAX` (2147483647); for any shorter slice it
passes exactly `samples.len()` as the sample count and returns normally. -/
theorem c10_accept_waveform_len_cast (v : OnlineTransducerRecognizer)
    (rate : Nat) (samples : List Rat) :
    ((OnlineTransducerRecognizer.acceptWaveformModel v rate samples =
        Except.error PanicOutcome.panicked) ↔ 2147483647 < samples.length) ∧
    (samples.length ≤ 2147483647 →
      OnlineTransducerRecognizer.acceptWaveformModel v rate samples =
        Except.ok [EngineEv.onlineStreamAcceptWaveform v.stream (wrapI32 rate)
          (samples.length : Int)]) := by
  unfold OnlineTransducerRecognizer.acceptWaveformModel usizeTryIntoI32
  by_cases h : samples.length ≤ 2147483647
  · constructor
    · simp [h]
    · intro _
      simp [h]
  · constructor
    · simp [h]
      omega
    · intro hc
      exact absurd hc h

/-- C10 witness: a three-sample chunk is passed through with count 3. -/
theorem c10_accept_waveform_len_cast_witness :
    OnlineTransducerRecognizer.acceptWaveformModel
      { recognizer := 1, stream := 2 } 16000 [0, 1, 2] =
      Except.ok [EngineEv.onlineStreamAcceptWaveform 2 16000 3] := by
  rw [(c10_accept_waveform_len_cast
    { recognizer := 1, stream := 2 } 16000 [0, 1, 2]).2 (by decide)]
  rfl
